import Mathlib

/-!
Verification of the porward repository: a typestate port-forwarding
wizard (`src/porwarder.rs`) driven by a terminal list selector
(`src/selector.rs`). The definitions below are shallow embeddings of the
Rust source; external effects (terminal drawing, keyboard reads, AWS
calls) are made explicit as data: the keyboard is a list of key codes,
drawing is a trace of rendered frames, and option providers are plain
list arguments.
-/

namespace Porward

/-- Key codes the selector loop reacts to (`crossterm::event::KeyCode`
cases used in `selector.rs`): Enter, Up, Down, Esc, and anything else. -/
inductive KeyCode
  | enter
  | up
  | down
  | esc
  | other
  deriving DecidableEq, Repr

/-- One frame drawn by `TUIStringListSelector::select`'s redraw closure:
the title line text, the list item texts, and the focused index the
highlight marker sits on. -/
structure Frame where
  titleBar : String
  items : List String
  focused : Nat
  deriving DecidableEq, Repr

/-- Outcome of a selector call: the operator either canceled (Esc, or an
empty option list) or chose entry `idx` with display label `label`. -/
inductive SelectOutcome
  | canceled
  | chosen (idx : Nat) (label : String)
  deriving DecidableEq, Repr

/-- The frame rendered by one pass of the redraw closure in
`TUIStringListSelector::select`: each item is prefixed with its 1-based
ordinal (`format!("{}. {}", idx + 1, item)`), and the block title is
`format!("{} [{}/{}]", title, index + 1, options.len())`. -/
def renderFrame (title : String) (options : List String) (index : Nat) : Frame :=
  { titleBar := title ++ " [" ++ toString (index + 1) ++ "/" ++ toString options.length ++ "]"
    items := options.enum.map fun p => toString (p.1 + 1) ++ ". " ++ p.2
    focused := index }

/-- Index update performed by the key handlers of the selector loop:
Up does `index += options.len() - 1; index %= options.len()`, Down does
`index += 1; index %= options.len()`, every other key leaves it alone. -/
def stepIndex (n : Nat) (e : KeyCode) (index : Nat) : Nat :=
  match e with
  | KeyCode.up => (index + (n - 1)) % n
  | KeyCode.down => (index + 1) % n
  | _ => index

/-- The `while selected.is_none()` loop of `TUIStringListSelector::select`:
draw a frame, read the next key event, and react. Enter selects
`options.get(index)` when present (when absent the loop keeps going,
exactly as `selected` stays `None` in the source); Esc returns
cancellation at once; Up and Down move the focus via `stepIndex`; other
keys redraw unchanged. Running out of events models blocking forever on
`event::read`, so no outcome is produced. -/
def selectLoop (title : String) (options : List String) :
    Nat → List KeyCode → List Frame × Option SelectOutcome
  | index, [] => ([renderFrame title options index], none)
  | index, e :: rest =>
    let f := renderFrame title options index
    match e with
    | KeyCode.enter =>
      match options.get? index with
      | some label => ([f], some (SelectOutcome.chosen index label))
      | none =>
        let (fs, out) := selectLoop title options index rest
        (f :: fs, out)
    | KeyCode.esc => ([f], some SelectOutcome.canceled)
    | KeyCode.up =>
      let (fs, out) := selectLoop title options (stepIndex options.length KeyCode.up index) rest
      (f :: fs, out)
    | KeyCode.down =>
      let (fs, out) := selectLoop title options (stepIndex options.length KeyCode.down index) rest
      (f :: fs, out)
    | KeyCode.other =>
      let (fs, out) := selectLoop title options index rest
      (f :: fs, out)

/-- Embeds `TUIStringListSelector::select`: an empty option list returns
cancellation immediately, before anything is drawn; otherwise the redraw
loop runs from index 0 over the supplied key events. The first component
is the trace of list frames drawn. -/
def select (title : String) (options : List String) (events : List KeyCode) :
    List Frame × Option SelectOutcome :=
  if options.length = 0 then ([], some SelectOutcome.canceled)
  else selectLoop title options 0 events

/-- The `Service` enum of `porwarder.rs`. -/
inductive Service
  | applicationLoadBalancer
  | postgresql
  | redis
  | valkey
  deriving DecidableEq, Repr

/-- The `Display` impl for `Service` in `porwarder.rs`. -/
def Service.display : Service → String
  | Service.applicationLoadBalancer => "ApplicationLoadBalancer"
  | Service.postgresql => "Postgresql"
  | Service.redis => "Redis"
  | Service.valkey => "Valkey"

/-- Embeds `Service::default_port` from `porwarder.rs`. -/
def Service.default_port : Service → Nat
  | Service.applicationLoadBalancer => 443
  | Service.postgresql => 5432
  | Service.redis => 6379
  | Service.valkey => 6379

/-- The `PortForwarder` parameter record of `porwarder.rs`: six optional
fields plus the `read_only` flag. Ports are kept as strings, as in the
source (`port.to_string()`). -/
structure PortForwarder where
  profile_name : Option String
  instance_id : Option String
  service : Option Service
  host_name : Option String
  host_port : Option String
  local_port : Option String
  read_only : Bool
  deriving DecidableEq, Repr

/-- The record built by `PortForwarder::builder`: every optional field
`None`, `read_only: true`. -/
def PortForwarder.initial : PortForwarder :=
  { profile_name := none
    instance_id := none
    service := none
    host_name := none
    host_port := none
    local_port := none
    read_only := true }

/-- Modelled from the spec: the workflow error kinds of §7 (the source's
`color_eyre` reports are untyped, and the adapter turning a selector
cancellation into an error is not part of the two core source files — the
trait in `porwarder.rs` demands a `Result` while `selector.rs` returns an
`Option`). `UserCanceled` carries no payload; its message is fixed. -/
inductive WorkflowError
  | prerequisiteMissing (tool : String)
  | fieldUnset (msg : String)
  | providerFailure (msg : String)
  | userCanceled
  | subprocessFailure (msg : String)
  deriving DecidableEq, Repr

/-- Modelled from the spec: the operator-visible message of each error
kind; cancellation is reported as "canceled by user" (§7). -/
def WorkflowError.message : WorkflowError → String
  | WorkflowError.prerequisiteMissing tool => tool ++ " is not installed. Please install it before running this program."
  | WorkflowError.fieldUnset msg => msg
  | WorkflowError.providerFailure msg => msg
  | WorkflowError.userCanceled => "canceled by user"
  | WorkflowError.subprocessFailure msg => msg

/-- The `self.selector.select(...)?` pattern shared by the four
interactive stages of `PortForwarderBuilder`: run the selector; on a
chosen entry continue with the continuation `k`, on cancellation abort
the stage with `UserCanceled` (the cancellation-to-error conversion is
modelled from the spec, see `WorkflowError`). `none` means the selector
is still blocked on keyboard input. -/
def stageSelect (title : String) (options : List String) (events : List KeyCode)
    (k : Nat → String → Except WorkflowError PortForwarder) :
    Option (Except WorkflowError PortForwarder) :=
  match (select title options events).2 with
  | some (SelectOutcome.chosen i l) => some (k i l)
  | some SelectOutcome.canceled => some (Except.error WorkflowError.userCanceled)
  | none => none

/-- Embeds `PortForwarderBuilder::<Start>::setup`: checks the two external tools
and passes the record through untouched; the record effect is the
identity. -/
def setupStage (p : PortForwarder) : PortForwarder := p

/-- Embeds `PortForwarderBuilder::<Profile>::profile`: the chosen label is
stored verbatim into `profile_name`. `availableProfiles` is the option
list the AWS profile provider returned. -/
def profileStage (p : PortForwarder) (availableProfiles : List String)
    (events : List KeyCode) : Option (Except WorkflowError PortForwarder) :=
  stageSelect "Select Profile" availableProfiles events
    (fun _ label => Except.ok { p with profile_name := some label })

/-- Embeds `PortForwarderBuilder::<Instance>::instance`: instances are
`(id, name)` pairs, the menu shows `"{name} ({id})"`, and
`instances.get(idx).map(|(id, _)| id)` is stored into `instance_id`. -/
def instanceStage (p : PortForwarder) (instances : List (String × String))
    (events : List KeyCode) : Option (Except WorkflowError PortForwarder) :=
  stageSelect "Select EC2 Instance"
    (instances.map fun inst => inst.2 ++ " (" ++ inst.1 ++ ")") events
    (fun idx _ => Except.ok { p with instance_id := (instances.get? idx).map Prod.fst })

/-- The fixed `services` array of
`PortForwarderBuilder::<DestinationType>::destination_type`. -/
def services : List Service :=
  [Service.applicationLoadBalancer, Service.redis, Service.valkey, Service.postgresql]

/-- Embeds `PortForwarderBuilder::<DestinationType>::destination_type`: the menu
is the `Display` form of the `services` array; the chosen service is
stored, `host_port` becomes its default port as a string, and
`local_port` is the default port shifted by 1000 when below 1000. -/
def destinationTypeStage (p : PortForwarder) (events : List KeyCode) :
    Option (Except WorkflowError PortForwarder) :=
  stageSelect "Select Destination Type" (services.map Service.display) events
    (fun idx _ =>
      let service := services.get? idx
      let default_port := service.map Service.default_port
      Except.ok { p with
        service := service
        host_port := default_port.map (fun port => toString port)
        local_port := default_port.map (fun port =>
          if port < 1000 then toString (port + 1000) else toString port) })

/-- Embeds `PortForwarderBuilder::<Destination>::destination`: destinations are
`(host_name, title)` pairs from the service-specific provider; the menu
shows the titles and the chosen host name is stored into `host_name`. -/
def destinationStage (p : PortForwarder) (destinations : List (String × String))
    (events : List KeyCode) : Option (Except WorkflowError PortForwarder) :=
  stageSelect "Select Host" (destinations.map Prod.snd) events
    (fun idx _ => Except.ok { p with host_name := (destinations.get? idx).map Prod.fst })

/-- Embeds `PortForwarderBuilder::<Ready>::build`: `Ok(self.port_forwarder)`,
unconditionally. -/
def build (p : PortForwarder) : Except WorkflowError PortForwarder :=
  Except.ok p

/-- The field-validation prefix of `PortForwarder::run`: five `ok_or`
checks, in source order, on `profile_name`, `instance_id`, `host_name`,
`host_port` and `local_port` (`service` is never checked). On success it
yields the five unwrapped strings that build the `aws ssm start-session`
command. -/
def PortForwarder.run_check (p : PortForwarder) :
    Except String (String × String × String × String × String) :=
  match p.profile_name with
  | none => Except.error "profile name is not set"
  | some profile_name =>
    match p.instance_id with
    | none => Except.error "instance id is not set"
    | some instance_id =>
      match p.host_name with
      | none => Except.error "host name is not set"
      | some host_name =>
        match p.host_port with
        | none => Except.error "host port is not set"
        | some host_port =>
          match p.local_port with
          | none => Except.error "local port is not set"
          | some local_port =>
            Except.ok (profile_name, instance_id, host_name, host_port, local_port)

lemma stepIndex_lt (n : Nat) (hn : 0 < n) (e : KeyCode) (i : Nat) (hi : i < n) :
    stepIndex n e i < n := by
  cases e <;> simp [stepIndex] <;> first
    | exact Nat.mod_lt _ hn
    | exact hi

lemma stepIndex_down_iter (n k : Nat) (hn : 0 < n) :
    (stepIndex n KeyCode.down)^[k] 0 = k % n := by
  induction k with
  | zero => simp
  | succ k ih =>
    rw [Function.iterate_succ_apply', ih]
    show (k % n + 1) % n = (k + 1) % n
    exact Nat.mod_add_mod k n 1

lemma stepIndex_up_iter (n k : Nat) (hn : 0 < n) :
    (stepIndex n KeyCode.up)^[k] 0 = (n - k % n) % n := by
  induction k with
  | zero => simp
  | succ k ih =>
    rw [Function.iterate_succ_apply', ih]
    show ((n - k % n) % n + (n - 1)) % n = (n - (k + 1) % n) % n
    rw [Nat.mod_add_mod]
    have hr : k % n < n := Nat.mod_lt _ hn
    have hk1 : (k + 1) % n = (k % n + 1) % n := (Nat.mod_add_mod k n 1).symm
    rcases Nat.lt_or_ge (k % n + 1) n with hB | hA
    · rw [hk1, Nat.mod_eq_of_lt hB]
      have h1 : n - k % n + (n - 1) = n + (n - (k % n + 1)) := by omega
      rw [h1, Nat.add_mod_left]
    · have hEq : k % n + 1 = n := by omega
      rw [hk1, hEq, Nat.mod_self]
      have h1 : n - k % n + (n - 1) = n := by omega
      rw [h1, Nat.mod_self, Nat.sub_zero, Nat.mod_self]

lemma selectLoop_sound (title : String) (options : List String) (events : List KeyCode) :
    ∀ (index : Nat), index < options.length →
      ∀ (i : Nat) (l : String),
        (selectLoop title options index events).2 = some (SelectOutcome.chosen i l) →
        i < options.length ∧ options.get? i = some l := by
  induction events with
  | nil => intro index _ i l h; simp [selectLoop] at h
  | cons e rest ih =>
    intro index hidx i l h
    have hpos : 0 < options.length := Nat.lt_of_le_of_lt (Nat.zero_le _) hidx
    cases e with
    | enter =>
      cases hopt : options.get? index with
      | none =>
        exact absurd hidx (by simpa using Nat.not_lt.mpr (List.get?_eq_none.mp hopt))
      | some label =>
        simp only [selectLoop, hopt, Option.some.injEq, SelectOutcome.chosen.injEq] at h
        obtain ⟨h1, h2⟩ := h
        subst h1; subst h2
        exact ⟨hidx, hopt⟩
    | esc => simp [selectLoop] at h
    | up =>
      simp only [selectLoop] at h
      exact ih _ (stepIndex_lt _ hpos _ _ hidx) i l h
    | down =>
      simp only [selectLoop] at h
      exact ih _ (stepIndex_lt _ hpos _ _ hidx) i l h
    | other =>
      simp only [selectLoop] at h
      exact ih index hidx i l h

lemma select_chosen_sound (title : String) (options : List String) (events : List KeyCode)
    (i : Nat) (l : String)
    (h : (select title options events).2 = some (SelectOutcome.chosen i l)) :
    i < options.length ∧ options.get? i = some l := by
  unfold select at h
  by_cases hlen : options.length = 0
  · rw [if_pos hlen] at h; simp at h
  · rw [if_neg hlen] at h
    exact selectLoop_sound title options events 0 (Nat.pos_of_ne_zero hlen) i l h

lemma selectLoop_esc_canceled (title : String) (options : List String) (rest : List KeyCode) :
    ∀ (pre : List KeyCode), (∀ e ∈ pre, e ≠ KeyCode.enter ∧ e ≠ KeyCode.esc) →
      ∀ (index : Nat),
        (selectLoop title options index (pre ++ KeyCode.esc :: rest)).2 =
          some SelectOutcome.canceled := by
  intro pre
  induction pre with
  | nil => intro _ index; simp [selectLoop]
  | cons e pre ih =>
    intro hpre index
    have he := hpre e (List.mem_cons_self e pre)
    have hpre' : ∀ e ∈ pre, e ≠ KeyCode.enter ∧ e ≠ KeyCode.esc :=
      fun x hx => hpre x (List.mem_cons_of_mem e hx)
    cases e with
    | enter => exact absurd rfl he.1
    | esc => exact absurd rfl he.2
    | up => simpa [selectLoop] using ih hpre' _
    | down => simpa [selectLoop] using ih hpre' _
    | other => simpa [selectLoop] using ih hpre' _

lemma selectLoop_frames (title : String) (options : List String) (events : List KeyCode) :
    ∀ (index : Nat) (f : Frame), f ∈ (selectLoop title options index events).1 →
      f = renderFrame title options f.focused := by
  induction events with
  | nil =>
    intro index f hf
    simp [selectLoop] at hf
    subst hf; rfl
  | cons e rest ih =>
    intro index f hf
    cases e with
    | enter =>
      cases hopt : options.get? index with
      | none =>
        simp only [selectLoop, hopt, List.mem_cons] at hf
        rcases hf with hf | hf
        · subst hf; rfl
        · exact ih index f hf
      | some label =>
        simp only [selectLoop, hopt, List.mem_singleton] at hf
        subst hf; rfl
    | esc =>
      simp only [selectLoop, List.mem_singleton] at hf
      subst hf; rfl
    | up =>
      simp only [selectLoop, List.mem_cons] at hf
      rcases hf with hf | hf
      · subst hf; rfl
      · exact ih _ f hf
    | down =>
      simp only [selectLoop, List.mem_cons] at hf
      rcases hf with hf | hf
      · subst hf; rfl
      · exact ih _ f hf
    | other =>
      simp only [selectLoop, List.mem_cons] at hf
      rcases hf with hf | hf
      · subst hf; rfl
      · exact ih index f hf

lemma stageSelect_ok (title : String) (options : List String) (events : List KeyCode)
    (k : Nat → String → Except WorkflowError PortForwarder) (r : PortForwarder)
    (h : stageSelect title options events k = some (Except.ok r)) :
    ∃ i l, i < options.length ∧ options.get? i = some l ∧ k i l = Except.ok r := by
  unfold stageSelect at h
  cases hsel : (select title options events).2 with
  | none => rw [hsel] at h; simp at h
  | some out =>
    cases out with
    | canceled => rw [hsel] at h; simp at h
    | chosen i l =>
      rw [hsel] at h
      obtain ⟨hi, hl⟩ := select_chosen_sound title options events i l hsel
      exact ⟨i, l, hi, hl, Option.some.inj h⟩

/-- C2: for every non-empty option list, whenever `select` produces an
outcome it is either an explicit cancellation or a pair `(i, l)` with
`i < options.length` and `l` equal to the list element at `i`; an
out-of-range index is never returned. -/
theorem select_in_range (title : String) (options : List String) (events : List KeyCode)
    (out : SelectOutcome) (hne : options ≠ [])
    (h : (select title options events).2 = some out) :
    out = SelectOutcome.canceled ∨
      ∃ i l, out = SelectOutcome.chosen i l ∧
        i < options.length ∧ options.get? i = some l := by
  cases out with
  | canceled => exact Or.inl rfl
  | chosen i l =>
    exact Or.inr ⟨i, l, rfl, select_chosen_sound title options events i l h⟩

/-- Witness for C2 at `options = ["a", "b"]` and events Down, Enter:
the outcome is `(1, "b")`, in range. -/
theorem select_in_range_witness :
    (["a", "b"] : List String) ≠ [] ∧
      (SelectOutcome.chosen 1 "b" = SelectOutcome.canceled ∨
        ∃ i l, SelectOutcome.chosen 1 "b" = SelectOutcome.chosen i l ∧
          i < (["a", "b"] : List String).length ∧
          (["a", "b"] : List String).get? i = some l) :=
  ⟨by decide,
   select_in_range "T" ["a", "b"] [KeyCode.down, KeyCode.enter]
     (SelectOutcome.chosen 1 "b") (by decide) rfl⟩

/-- C5: from focused index 0, `k` Down presses land on `k % n`, `k` Up
presses land on `(n - k % n) % n`, and on a single-element list Up and
Down leave the focus unchanged. -/
theorem stepIndex_iter_spec (n k : Nat) (hn : 0 < n) (hk : 0 < k) :
    (stepIndex n KeyCode.down)^[k] 0 = k % n ∧
    (stepIndex n KeyCode.up)^[k] 0 = (n - k % n) % n ∧
    (∀ e : KeyCode, stepIndex 1 e 0 = 0) :=
  ⟨stepIndex_down_iter n k hn, stepIndex_up_iter n k hn, fun e => by cases e <;> rfl⟩

/-- Witness for C5 at `n = 3`, `k = 5`: Down five times reaches 2, Up
five times reaches 1. -/
theorem stepIndex_iter_spec_witness :
    (stepIndex 3 KeyCode.down)^[5] 0 = 5 % 3 ∧
    (stepIndex 3 KeyCode.up)^[5] 0 = (3 - 5 % 3) % 3 ∧
    (∀ e : KeyCode, stepIndex 1 e 0 = 0) :=
  stepIndex_iter_spec 3 5 (by decide) (by decide)

/-- C6: `select` on an empty option list returns cancellation at once
with an empty frame trace — nothing is rendered. -/
theorem select_empty_cancels (title : String) (events : List KeyCode) :
    select title [] events = ([], some SelectOutcome.canceled) :=
  rfl

/-- C8: every frame drawn by `select` shows each item prefixed with its
1-based ordinal, and a title bar reading
`title ++ " [" ++ (focused index + 1) ++ "/" ++ count ++ "]"` where the
focused index is 0-based (so the bracketed number is the focused item's
1-based position). -/
theorem select_render_spec (title : String) (options : List String) (events : List KeyCode)
    (f : Frame) (hf : f ∈ (select title options events).1) :
    f.items = options.enum.map (fun p => toString (p.1 + 1) ++ ". " ++ p.2) ∧
    f.titleBar =
      title ++ " [" ++ toString (f.focused + 1) ++ "/" ++ toString options.length ++ "]" := by
  unfold select at hf
  by_cases hlen : options.length = 0
  · rw [if_pos hlen] at hf; simp at hf
  · rw [if_neg hlen] at hf
    have := selectLoop_frames title options events 0 f hf
    rw [this]
    exact ⟨rfl, rfl⟩

/-- Witness for C8: the single frame drawn by `select "T" ["a", "b"]`
with no key events has the claimed item texts and title bar. -/
theorem select_render_spec_witness :
    (renderFrame "T" ["a", "b"] 0).items =
        (["a", "b"] : List String).enum.map (fun p => toString (p.1 + 1) ++ ". " ++ p.2) ∧
    (renderFrame "T" ["a", "b"] 0).titleBar =
      "T" ++ " [" ++ toString ((renderFrame "T" ["a", "b"] 0).focused + 1) ++ "/" ++
        toString (["a", "b"] : List String).length ++ "]" :=
  select_render_spec "T" ["a", "b"] [] (renderFrame "T" ["a", "b"] 0)
    (by simp [select, selectLoop])

/-- C9: a selector cancellation — an Esc press (after any run of keys
that are neither Enter nor Esc), or an empty option list — makes the
enclosing stage abort with `UserCanceled`, whose message is
"canceled by user". The conversion of the selector's cancellation into
the workflow error is modelled from the spec (see `WorkflowError`). -/
theorem cancel_spec (title : String) (options : List String)
    (k : Nat → String → Except WorkflowError PortForwarder) :
    (∀ events, (select title options events).2 = some SelectOutcome.canceled →
      stageSelect title options events k = some (Except.error WorkflowError.userCanceled)) ∧
    (∀ events, (select title [] events).2 = some SelectOutcome.canceled) ∧
    (∀ pre rest, (∀ e ∈ pre, e ≠ KeyCode.enter ∧ e ≠ KeyCode.esc) →
      (select title options (pre ++ KeyCode.esc :: rest)).2 = some SelectOutcome.canceled) ∧
    WorkflowError.message WorkflowError.userCanceled = "canceled by user" := by
  refine ⟨fun events h => ?_, fun events => rfl, fun pre rest hpre => ?_, rfl⟩
  · unfold stageSelect
    rw [h]
  · unfold select
    by_cases hlen : options.length = 0
    · rw [if_pos hlen]
    · rw [if_neg hlen]
      exact selectLoop_esc_canceled title options rest pre hpre 0

/-- Witness for C9: with options `["a"]` and key events Down then Esc,
the stage aborts with `UserCanceled` and the message is
"canceled by user". -/
theorem cancel_spec_witness :
    stageSelect "T" ["a"] [KeyCode.down, KeyCode.esc]
        (fun _ _ => Except.ok PortForwarder.initial) =
      some (Except.error WorkflowError.userCanceled) ∧
    WorkflowError.message WorkflowError.userCanceled = "canceled by user" :=
  ⟨(cancel_spec "T" ["a"] (fun _ _ => Except.ok PortForwarder.initial)).1
      [KeyCode.down, KeyCode.esc] rfl,
   (cancel_spec "T" ["a"] (fun _ _ => Except.ok PortForwarder.initial)).2.2.2⟩

/-- A record with `service` unset but the five `run`-checked fields set:
it finalizes and passes the field check, refuting the six-field claim. -/
def serviceUnsetRecord : PortForwarder :=
  { profile_name := some "default"
    instance_id := some "i-0"
    service := none
    host_name := some "h"
    host_port := some "443"
    local_port := some "1443"
    read_only := true }

/-- C1 counterexample: `service` is absent, yet finalization does not
fail — `build` succeeds and the `run` field check succeeds, because
`service` is one of the six fields the claim lists but the code checks
only the other five (and `build` checks nothing at all). -/
theorem finalize_six_fields_counterexample :
    serviceUnsetRecord.service = none ∧
    build serviceUnsetRecord = Except.ok serviceUnsetRecord ∧
    serviceUnsetRecord.run_check =
      Except.ok ("default", "i-0", "h", "443", "1443") :=
  ⟨rfl, rfl, rfl⟩

/-- C1 (amended): `build` never fails; the defensive field check lives in
`run`, which fails with a "field is not set" error iff at least one of
the five fields `profile_name`, `instance_id`, `host_name`, `host_port`,
`local_port` is absent (`service` is never checked); once those five are
set it never fails, regardless of field values. -/
theorem finalize_field_check_spec (p : PortForwarder) :
    build p = Except.ok p ∧
    ((∃ msg, p.run_check = Except.error msg) ↔
      (p.profile_name = none ∨ p.instance_id = none ∨ p.host_name = none ∨
        p.host_port = none ∨ p.local_port = none)) := by
  refine ⟨rfl, ?_⟩
  obtain ⟨pn, iid, sv, hn, hp, lp, ro⟩ := p
  cases pn <;> cases iid <;> cases hn <;> cases hp <;> cases lp <;>
    simp [PortForwarder.run_check]

/-- C3: whenever `destination_type` succeeds, the chosen service's
default port lands in `host_port` as a string and `local_port` follows
the shift-under-1000 rule; concretely ALB gives 443/1443 and Postgresql,
Redis and Valkey keep their default ports 5432, 6379, 6379. -/
theorem destination_type_ports (p p' : PortForwarder) (events : List KeyCode)
    (h : destinationTypeStage p events = some (Except.ok p')) :
    ∃ s : Service, p'.service = some s ∧
      p'.host_port = some (toString s.default_port) ∧
      p'.local_port = some (if s.default_port < 1000
        then toString (s.default_port + 1000) else toString s.default_port) ∧
      (s = Service.applicationLoadBalancer →
        p'.host_port = some "443" ∧ p'.local_port = some "1443") ∧
      (s = Service.postgresql →
        p'.host_port = some "5432" ∧ p'.local_port = some "5432") ∧
      (s = Service.redis →
        p'.host_port = some "6379" ∧ p'.local_port = some "6379") ∧
      (s = Service.valkey →
        p'.host_port = some "6379" ∧ p'.local_port = some "6379") := by
  obtain ⟨i, l, hi, hl, hk⟩ := stageSelect_ok _ _ _ _ _ h
  have hi4 : i < 4 := by simpa [services] using hi
  have hk' := Except.ok.inj hk
  interval_cases i
  · subst hk'
    exact ⟨Service.applicationLoadBalancer, rfl, rfl, rfl,
      fun _ => ⟨rfl, rfl⟩, fun hs => Service.noConfusion hs,
      fun hs => Service.noConfusion hs, fun hs => Service.noConfusion hs⟩
  · subst hk'
    exact ⟨Service.redis, rfl, rfl, rfl,
      fun hs => Service.noConfusion hs, fun hs => Service.noConfusion hs,
      fun _ => ⟨rfl, rfl⟩, fun hs => Service.noConfusion hs⟩
  · subst hk'
    exact ⟨Service.valkey, rfl, rfl, rfl,
      fun hs => Service.noConfusion hs, fun hs => Service.noConfusion hs,
      fun hs => Service.noConfusion hs, fun _ => ⟨rfl, rfl⟩⟩
  · subst hk'
    exact ⟨Service.postgresql, rfl, rfl, rfl,
      fun hs => Service.noConfusion hs, fun _ => ⟨rfl, rfl⟩,
      fun hs => Service.noConfusion hs, fun hs => Service.noConfusion hs⟩

/-- Witness for C3: pressing Enter at the destination-type menu chooses
ALB, yielding host port "443" and local port "1443". -/
theorem destination_type_ports_witness :
    ∃ s : Service,
      (let p' : PortForwarder := { PortForwarder.initial with
        service := some Service.applicationLoadBalancer
        host_port := some "443"
        local_port := some "1443" }
      p'.service = some s ∧
      p'.host_port = some (toString s.default_port) ∧
      p'.local_port = some (if s.default_port < 1000
        then toString (s.default_port + 1000) else toString s.default_port) ∧
      (s = Service.applicationLoadBalancer →
        p'.host_port = some "443" ∧ p'.local_port = some "1443") ∧
      (s = Service.postgresql →
        p'.host_port = some "5432" ∧ p'.local_port = some "5432") ∧
      (s = Service.redis →
        p'.host_port = some "6379" ∧ p'.local_port = some "6379") ∧
      (s = Service.valkey →
        p'.host_port = some "6379" ∧ p'.local_port = some "6379")) :=
  destination_type_ports PortForwarder.initial
    { PortForwarder.initial with
      service := some Service.applicationLoadBalancer
      host_port := some "443"
      local_port := some "1443" }
    [KeyCode.enter] rfl

/-- C4: driving the pipeline Start→Profile→Instance→DestinationType→
Destination→Ready populates the record fields in strict stage order —
after each stage exactly the fields of the completed stages are set —
and every later transition keeps every earlier field's value unchanged;
`build` passes the record through untouched. -/
theorem pipeline_field_order
    (profiles : List String) (instances destinations : List (String × String))
    (ev1 ev2 ev3 ev4 : List KeyCode) (p1 p2 p3 p4 : PortForwarder)
    (h1 : profileStage (setupStage PortForwarder.initial) profiles ev1 = some (Except.ok p1))
    (h2 : instanceStage p1 instances ev2 = some (Except.ok p2))
    (h3 : destinationTypeStage p2 ev3 = some (Except.ok p3))
    (h4 : destinationStage p3 destinations ev4 = some (Except.ok p4)) :
    (p1.profile_name.isSome ∧ p1.instance_id = none ∧ p1.service = none ∧
      p1.host_name = none ∧ p1.host_port = none ∧ p1.local_port = none) ∧
    (p2.profile_name = p1.profile_name ∧ p2.instance_id.isSome ∧ p2.service = none ∧
      p2.host_name = none ∧ p2.host_port = none ∧ p2.local_port = none) ∧
    (p3.profile_name = p1.profile_name ∧ p3.instance_id = p2.instance_id ∧
      p3.service.isSome ∧ p3.host_name = none ∧ p3.host_port.isSome ∧
      p3.local_port.isSome) ∧
    (p4.profile_name = p1.profile_name ∧ p4.instance_id = p2.instance_id ∧
      p4.service = p3.service ∧ p4.host_name.isSome ∧ p4.host_port = p3.host_port ∧
      p4.local_port = p3.local_port) ∧
    build p4 = Except.ok p4 := by
  obtain ⟨i1, l1, hi1, hl1, hk1⟩ := stageSelect_ok _ _ _ _ _ h1
  obtain ⟨i2, l2, hi2, hl2, hk2⟩ := stageSelect_ok _ _ _ _ _ h2
  obtain ⟨i3, l3, hi3, hl3, hk3⟩ := stageSelect_ok _ _ _ _ _ h3
  obtain ⟨i4, l4, hi4, hl4, hk4⟩ := stageSelect_ok _ _ _ _ _ h4
  have e1 := Except.ok.inj hk1
  have e2 := Except.ok.inj hk2
  have e3 := Except.ok.inj hk3
  have e4 := Except.ok.inj hk4
  subst e1; subst e2; subst e3; subst e4
  rw [List.length_map] at hi2 hi3 hi4
  have hinst : (instances.get? i2).isSome := by rw [List.get?_eq_get hi2]; rfl
  have hserv : (services.get? i3).isSome := by
    simp only [services] at hi3 ⊢
    rw [List.get?_eq_get hi3]; rfl
  have hdest : (destinations.get? i4).isSome := by rw [List.get?_eq_get hi4]; rfl
  refine ⟨⟨rfl, rfl, rfl, rfl, rfl, rfl⟩,
    ⟨rfl, ?_, rfl, rfl, rfl, rfl⟩,
    ⟨rfl, rfl, ?_, rfl, ?_, ?_⟩,
    ⟨rfl, rfl, rfl, ?_, rfl, rfl⟩, rfl⟩
  · simpa using hinst
  · simpa using hserv
  · simpa using hserv
  · simpa using hserv
  · simpa using hdest

/-- Witness for C4: a concrete end-to-end drive with one-element option
lists and Enter pressed at each stage. -/
theorem pipeline_field_order_witness :
    (let q1 : PortForwarder := { PortForwarder.initial with profile_name := some "dev" }
    let q2 : PortForwarder := { q1 with instance_id := some "i-1" }
    let q3 : PortForwarder := { q2 with
      service := some Service.applicationLoadBalancer
      host_port := some "443"
      local_port := some "1443" }
    let q4 : PortForwarder := { q3 with host_name := some "h" }
    (q1.profile_name.isSome ∧ q1.instance_id = none ∧ q1.service = none ∧
      q1.host_name = none ∧ q1.host_port = none ∧ q1.local_port = none) ∧
    (q2.profile_name = q1.profile_name ∧ q2.instance_id.isSome ∧ q2.service = none ∧
      q2.host_name = none ∧ q2.host_port = none ∧ q2.local_port = none) ∧
    (q3.profile_name = q1.profile_name ∧ q3.instance_id = q2.instance_id ∧
      q3.service.isSome ∧ q3.host_name = none ∧ q3.host_port.isSome ∧
      q3.local_port.isSome) ∧
    (q4.profile_name = q1.profile_name ∧ q4.instance_id = q2.instance_id ∧
      q4.service = q3.service ∧ q4.host_name.isSome ∧ q4.host_port = q3.host_port ∧
      q4.local_port = q3.local_port) ∧
    build q4 = Except.ok q4) :=
  pipeline_field_order ["dev"] [("i-1", "web")] [("h", "H")]
    [KeyCode.enter] [KeyCode.enter] [KeyCode.enter] [KeyCode.enter]
    { PortForwarder.initial with profile_name := some "dev" }
    { PortForwarder.initial with profile_name := some "dev", instance_id := some "i-1" }
    { PortForwarder.initial with profile_name := some "dev", instance_id := some "i-1",
                                 service := some Service.applicationLoadBalancer,
                                 host_port := some "443", local_port := some "1443" }
    { PortForwarder.initial with profile_name := some "dev", instance_id := some "i-1",
                                 service := some Service.applicationLoadBalancer,
                                 host_port := some "443", local_port := some "1443",
                                 host_name := some "h" }
    rfl rfl rfl rfl

/-- C7 counterexample: the destination-type menu's first label is
"ApplicationLoadBalancer" (the `Display` form, no spaces), so the menu is
not the claimed list starting with "Application Load Balancer". -/
theorem services_menu_counterexample :
    services.map Service.display ≠
        ["Application Load Balancer", "Redis", "Valkey", "Postgresql"] ∧
    (services.map Service.display).get? 0 = some "ApplicationLoadBalancer" := by
  exact ⟨by decide, by decide⟩

/-- C7 (amended): the destination-type menu has exactly four items,
labeled "ApplicationLoadBalancer", "Redis", "Valkey", "Postgresql", in
that exact order. -/
theorem services_menu_spec :
    services.map Service.display =
      ["ApplicationLoadBalancer", "Redis", "Valkey", "Postgresql"] ∧
    (services.map Service.display).length = 4 := by
  exact ⟨by decide, by decide⟩

/-- C10: the record starts with `read_only = true` and every operation —
setup, the four selector-driven stages, and `build` — leaves `read_only`
exactly as it found it, so every reachable builder state and the
finalized record have `read_only = true`. -/
theorem read_only_invariant :
    PortForwarder.initial.read_only = true ∧
    (∀ p, (setupStage p).read_only = p.read_only) ∧
    (∀ p profiles ev p', profileStage p profiles ev = some (Except.ok p') →
      p'.read_only = p.read_only) ∧
    (∀ p instances ev p', instanceStage p instances ev = some (Except.ok p') →
      p'.read_only = p.read_only) ∧
    (∀ p ev p', destinationTypeStage p ev = some (Except.ok p') →
      p'.read_only = p.read_only) ∧
    (∀ p destinations ev p', destinationStage p destinations ev = some (Except.ok p') →
      p'.read_only = p.read_only) ∧
    (∀ p p', build p = Except.ok p' → p'.read_only = p.read_only) := by
  refine ⟨rfl, fun p => rfl, ?_, ?_, ?_, ?_, ?_⟩
  · intro p profiles ev p' h
    obtain ⟨i, l, _, _, hk⟩ := stageSelect_ok _ _ _ _ _ h
    rw [← Except.ok.inj hk]
  · intro p instances ev p' h
    obtain ⟨i, l, _, _, hk⟩ := stageSelect_ok _ _ _ _ _ h
    rw [← Except.ok.inj hk]
  · intro p ev p' h
    obtain ⟨i, l, _, _, hk⟩ := stageSelect_ok _ _ _ _ _ h
    rw [← Except.ok.inj hk]
  · intro p destinations ev p' h
    obtain ⟨i, l, _, _, hk⟩ := stageSelect_ok _ _ _ _ _ h
    rw [← Except.ok.inj hk]
  · intro p p' h
    rw [← Except.ok.inj h]

/-- Witness for C10: a concrete profile stage run keeps `read_only`
at `true`. -/
theorem read_only_invariant_witness :
    ({ PortForwarder.initial with profile_name := some "dev" } :
        PortForwarder).read_only = PortForwarder.initial.read_only :=
  read_only_invariant.2.2.1 PortForwarder.initial ["dev"] [KeyCode.enter]
    { PortForwarder.initial with profile_name := some "dev" } rfl

end Porward
